import Mathlib

/-!
Shallow embedding of `src/libcore/option.rs` (the `Option` type of the
repository's core library) together with proofs of the specification's
claims about it.

Modelling conventions:
* Rust's `Option<T>` enum becomes the inductive type `Rust.Option T`
  with constructors `None` and `Some`, in declaration order as in the
  source (`None` first, then `Some`), which matters for the derived
  ordering.
* References (`&T`, `&mut T`) are erased: in this value-level model
  `as_ref` and `as_mut` are the identity match from the source.
* Functions that panic (`unwrap`, `expect`) return `Except String T`:
  the `.error` carries the panic message the source builds.
* `FnOnce` closures with possible side effects are modelled by explicit
  state passing: a supplier `F: FnOnce() -> T` becomes `f : σ → T × σ`,
  and a call `f()` in state `s` is `f s`.  A function that does not call
  its closure leaves the state untouched and ignores `f` entirely.
* `&mut self` methods return the pair (result, updated self).
* Iterators over a sequence are modelled by a `List` holding the not yet
  consumed elements; `iter.next()` takes the head.
-/

namespace Rust

/-- The `Option` enum from `src/libcore/option.rs` (lines 166-175).
`None` is declared before `Some`, as in the source. -/
inductive Option (T : Type) where
  | None : Option T
  | Some : T → Option T
deriving Repr, DecidableEq

/-- `Option::is_some` (source lines 199-204). -/
def Option.is_some : Option T → Bool
  | .Some _ => true
  | .None => false

/-- `Option::is_none` (source lines 219-221): `!self.is_some()`. -/
def Option.is_none (o : Option T) : Bool :=
  !o.is_some

/-- `Option::as_ref` (source lines 245-250); the reference is erased in
this value-level model, so the match returns the payload itself. -/
def Option.as_ref : Option T → Option T
  | .Some x => .Some x
  | .None => .None

/-- `Option::as_mut` (source lines 266-271); references erased. -/
def Option.as_mut : Option T → Option T
  | .Some x => .Some x
  | .None => .None

/-- `Option::expect` (source lines 326-331): `Some(val) => val`,
`None => panic!("{}", msg)` which panics with exactly `msg`. -/
def Option.expect (o : Option T) (msg : String) : Except String T :=
  match o with
  | .Some val => .ok val
  | .None => .error msg

/-- `Option::unwrap` (source lines 358-363): `Some(val) => val`,
`None` panics with the fixed message. -/
def Option.unwrap : Option T → Except String T
  | .Some val => .ok val
  | .None => .error "called `Option::unwrap()` on a `None` value"

/-- `Option::unwrap_or` (source lines 375-380). -/
def Option.unwrap_or (o : Option T) (def_ : T) : T :=
  match o with
  | .Some x => x
  | .None => def_

/-- `Option::unwrap_or_else` (source lines 393-398), with the `FnOnce`
supplier modelled by explicit state passing: on `Some x` the closure is
never called and the state is untouched; on `None` the body is `f()`,
one call of `f` in the current state. -/
def Option.unwrap_or_else (o : Option T) (f : σ → T × σ) (s : σ) : T × σ :=
  match o with
  | .Some x => (x, s)
  | .None => f s

/-- `Option::map` (source lines 417-422). -/
def Option.map (o : Option T) (f : T → U) : Option U :=
  match o with
  | .Some x => .Some (f x)
  | .None => .None

/-- `Option::and` (source lines 596-601). -/
def Option.and (o : Option T) (optb : Option U) : Option U :=
  match o with
  | .Some _ => optb
  | .None => .None

/-- `Option::and_then` (source lines 619-624). -/
def Option.and_then (o : Option T) (f : T → Option U) : Option U :=
  match o with
  | .Some x => f x
  | .None => .None

/-- `Option::or` (source lines 649-654). -/
def Option.or (o : Option T) (optb : Option T) : Option T :=
  match o with
  | .Some _ => o
  | .None => optb

/-- `Option::or_else` (source lines 671-676), supplier modelled by
explicit state passing as for `unwrap_or_else`. -/
def Option.or_else (o : Option T) (f : σ → Option T × σ) (s : σ) : Option T × σ :=
  match o with
  | .Some _ => (o, s)
  | .None => f s

/-- `Option::take` (source lines 697-699): `mem::replace(self, None)`
returns the old contents and leaves `None` behind; modelled as the pair
(returned value, new contents of self). -/
def Option.take (o : Option T) : Option T × Option T :=
  (o, .None)

end Rust

namespace Rust

/-!
Derived trait implementations from
`#[deriving(Clone, Copy, PartialEq, PartialOrd, Eq, Ord, Show, Hash)]`
(source line 166).  The derived code is structural over the enum:
equality holds only between identical variants and compares payloads of
`Some`; ordering follows variant declaration order (`None` before
`Some`) and compares payloads within `Some`; hashing feeds the variant
discriminant and then the fields of the variant into the hasher.  The
hasher is modelled as the list of words written to it; a payload type's
hash routine is a parameter `hT : T → List Nat`.
-/

/-- Derived `PartialEq`/`Eq` for `Option` (source line 166), structural
over the payload equality `eqT`. -/
def Option.eq (eqT : T → T → Bool) : Option T → Option T → Bool
  | .None, .None => true
  | .Some a, .Some b => eqT a b
  | _, _ => false

/-- Derived `PartialOrd`/`Ord` for `Option` (source line 166): variants
compare by declaration order, `None` before `Some`; payload comparison
`cmpT` decides between two `Some`. -/
def Option.cmp (cmpT : T → T → Ordering) : Option T → Option T → Ordering
  | .None, .None => .eq
  | .None, .Some _ => .lt
  | .Some _, .None => .gt
  | .Some a, .Some b => cmpT a b

/-- Derived `Hash` for `Option` (source line 166): writes the variant
discriminant (0 for `None`, 1 for `Some`) and then the fields; the
hasher state is the list of written words. -/
def Option.hash (hT : T → List Nat) : Option T → List Nat
  | .None => [0]
  | .Some x => 1 :: hT x

end Rust

namespace Rust

/-!
The option iterators (source lines 775-863).  `Item<A>` holds an
`Option<A>`; `next` and `next_back` are both `self.opt.take()`;
`size_hint` reports `(1, Some(1))` or `(0, Some(0))`.  The public
wrappers `Iter` (borrowed), `IterMut` (mutable) and `IntoIter`
(consuming) each hold an `Item` and delegate every method to it.
In this value-level model the borrowed element `&A` and `&mut A` are
erased to `A`.
-/

/-- `struct Item<A> { opt: Option<A> }` (source lines 776-778). -/
structure Item (A : Type) where
  opt : Option A

/-- `Item::next` (source lines 782-784): `self.opt.take()`. -/
def Item.next (it : Item A) : Option A × Item A :=
  let r := it.opt.take
  (r.1, { opt := r.2 })

/-- `Item::size_hint` (source lines 787-792). -/
def Item.size_hint (it : Item A) : Nat × Option Nat :=
  match it.opt with
  | .Some _ => (1, .Some 1)
  | .None => (0, .Some 0)

/-- `Item::next_back` (source lines 797-799): also `self.opt.take()`. -/
def Item.next_back (it : Item A) : Option A × Item A :=
  let r := it.opt.take
  (r.1, { opt := r.2 })

/-- Number of elements this iterator will still yield: one while the
single element is pending, zero once exhausted.  This is the exact size
that the `ExactSizeIterator` implementation (source line 802) promises
`size_hint` reports. -/
def Item.remaining (it : Item A) : Nat :=
  match it.opt with
  | .Some _ => 1
  | .None => 0

/-- `struct Iter` (source line 806), the borrowed-iteration form. -/
structure Iter (A : Type) where
  inner : Item A

/-- `Iter::next` (source line 810): delegates to `inner`. -/
def Iter.next (it : Iter A) : Option A × Iter A :=
  let r := it.inner.next
  (r.1, { inner := r.2 })

/-- `Iter::size_hint` (source line 812). -/
def Iter.size_hint (it : Iter A) : Nat × Option Nat :=
  it.inner.size_hint

/-- `Iter::next_back` (source line 817). -/
def Iter.next_back (it : Iter A) : Option A × Iter A :=
  let r := it.inner.next_back
  (r.1, { inner := r.2 })

/-- `struct IterMut` (source line 831), the mutable-iteration form. -/
structure IterMut (A : Type) where
  inner : Item A

/-- `IterMut::next` (source line 835). -/
def IterMut.next (it : IterMut A) : Option A × IterMut A :=
  let r := it.inner.next
  (r.1, { inner := r.2 })

/-- `IterMut::size_hint` (source line 837). -/
def IterMut.size_hint (it : IterMut A) : Nat × Option Nat :=
  it.inner.size_hint

/-- `IterMut::next_back` (source line 842). -/
def IterMut.next_back (it : IterMut A) : Option A × IterMut A :=
  let r := it.inner.next_back
  (r.1, { inner := r.2 })

/-- `struct IntoIter` (source line 849), the consuming-iteration form. -/
structure IntoIter (A : Type) where
  inner : Item A

/-- `IntoIter::next` (source line 853). -/
def IntoIter.next (it : IntoIter A) : Option A × IntoIter A :=
  let r := it.inner.next
  (r.1, { inner := r.2 })

/-- `IntoIter::size_hint` (source line 855). -/
def IntoIter.size_hint (it : IntoIter A) : Nat × Option Nat :=
  it.inner.size_hint

/-- `IntoIter::next_back` (source line 860). -/
def IntoIter.next_back (it : IntoIter A) : Option A × IntoIter A :=
  let r := it.inner.next_back
  (r.1, { inner := r.2 })

/-- `Option::iter` (source lines 525-527):
`Iter { inner: Item { opt: self.as_ref() } }`. -/
def Option.iter (o : Option A) : Iter A :=
  { inner := { opt := o.as_ref } }

/-- `Option::iter_mut` (source lines 546-548):
`IterMut { inner: Item { opt: self.as_mut() } }`. -/
def Option.iter_mut (o : Option A) : IterMut A :=
  { inner := { opt := o.as_mut } }

/-- `Option::into_iter` (source lines 565-567):
`IntoIter { inner: Item { opt: self } }`. -/
def Option.into_iter (o : Option A) : IntoIter A :=
  { inner := { opt := o } }

end Rust

namespace Rust

/-!
`FromIterator<Option<A>> for Option<V>` (source lines 870-921).  The
source wraps the incoming iterator in an `Adapter` that yields payloads
until it meets a `None` (recording `found_none`), lets the container `V`
collect from the adapter, and returns `None` iff `found_none` was set.
The incoming iterator is modelled as the list of its not yet consumed
elements, and the container `V` as `List A`.  `collectFrom` is the
container's collection loop fused with `Adapter::next` (source lines
901-910): it returns the collected payloads together with the final
adapter state (its remaining, never-consumed elements and the
`found_none` flag).
-/

/-- Final state of the `Adapter` (source lines 894-897): the elements of
the underlying iterator that were never consumed, and the flag set when
a `None` element was encountered. -/
structure Adapter (A : Type) where
  iter : List (Option A)
  found_none : Bool

/-- The container's collection loop over the adapter, each step being
`Adapter::next` (source lines 901-910): a `Some v` element is consumed
and `v` collected; a `None` element is consumed, sets `found_none` and
stops; end of input stops. -/
def collectFrom : List (Option A) → Bool → List A × Adapter A
  | [], fn => ([], ⟨[], fn⟩)
  | x :: rest, fn =>
    match x with
    | .Some v =>
      let r := collectFrom rest fn
      (v :: r.1, r.2)
    | .None => ([], ⟨rest, true⟩)

/-- `from_iter` for `Option<V>` (source lines 890-921) with the
container `V` instantiated at `List A`: collect through the adapter
starting with `found_none = false`, then return `None` if the flag was
set and `Some` of the collected container otherwise. -/
def Option.from_iter (l : List (Option A)) : Option (List A) :=
  let r := collectFrom l false
  if r.2.found_none then .None else .Some r.1

end Rust

namespace Rust

/-! ## Helper lemmas -/

theorem collectFrom_all_some (xs : List A) (fn : Bool) :
    collectFrom (xs.map Option.Some) fn = (xs, ⟨[], fn⟩) := by
  induction xs with
  | nil => rfl
  | cons x rest ih => simp [collectFrom, ih]

theorem collectFrom_stops (xs : List A) (post : List (Option A)) (fn : Bool) :
    collectFrom (xs.map Option.Some ++ Option.None :: post) fn
      = (xs, ⟨post, true⟩) := by
  induction xs with
  | nil => rfl
  | cons x rest ih => simp [collectFrom, ih]

/-! ## The claims -/

/-- Claim C1: collecting a sequence of options into an option of a
container yields `Some` of all payloads in order when every element is
`Some`; the first `None` makes the overall result `None`, collection
stops there, and the elements after the first `None` are left in the
source iterator unconsumed. -/
theorem from_iter_spec (xs : List A) (post : List (Option A)) :
    Option.from_iter (xs.map Option.Some) = Option.Some xs ∧
    Option.from_iter (xs.map Option.Some ++ Option.None :: post)
      = Option.None ∧
    (collectFrom (xs.map Option.Some ++ Option.None :: post) false).2.iter
      = post ∧
    (collectFrom (xs.map Option.Some ++ Option.None :: post) false).1
      = xs := by
  refine ⟨?_, ?_, ?_, ?_⟩
  · simp [Option.from_iter, collectFrom_all_some]
  · simp [Option.from_iter, collectFrom_stops]
  · simp [collectFrom_stops]
  · simp [collectFrom_stops]

/-- Claim C2: `unwrap` and `expect` return the payload of `Some`; on
`None`, `unwrap` panics with the fixed message and `expect` panics with
exactly the caller-supplied message; neither returns a value on the
`None` path. -/
theorem unwrap_expect_spec (x : T) (msg : String) :
    Option.unwrap (Option.Some x) = Except.ok x ∧
    Option.expect (Option.Some x) msg = Except.ok x ∧
    Option.unwrap (Option.None : Option T)
      = Except.error "called `Option::unwrap()` on a `None` value" ∧
    Option.expect (Option.None : Option T) msg = Except.error msg :=
  ⟨rfl, rfl, rfl, rfl⟩

/-- Claim C3: `take` returns the prior contents and leaves `None`
behind; taking twice from a `Some x` yields `Some x` then `None`, the
option remaining `None`. -/
theorem take_spec (x : T) (o : Option T) :
    Option.take o = (o, Option.None) ∧
    (Option.take (Option.Some x)).1 = Option.Some x ∧
    (Option.take (Option.take (Option.Some x)).2).1 = Option.None ∧
    (Option.take (Option.take (Option.Some x)).2).2 = Option.None :=
  ⟨rfl, rfl, rfl, rfl⟩

/-- Claim C4: the iterator over `Some x` yields exactly `x` once and
nothing afterwards, the iterator over `None` yields nothing, and
`next_back` coincides with `next`, for the borrowed (`iter`), mutable
(`iter_mut`) and consuming (`into_iter`) forms alike. -/
theorem iter_spec (x : A) :
    (Option.Some x).iter.next.1 = Option.Some x ∧
    (Option.Some x).iter.next.2.next.1 = Option.None ∧
    (Option.None : Option A).iter.next.1 = Option.None ∧
    (Option.Some x).iter_mut.next.1 = Option.Some x ∧
    (Option.Some x).iter_mut.next.2.next.1 = Option.None ∧
    (Option.None : Option A).iter_mut.next.1 = Option.None ∧
    (Option.Some x).into_iter.next.1 = Option.Some x ∧
    (Option.Some x).into_iter.next.2.next.1 = Option.None ∧
    (Option.None : Option A).into_iter.next.1 = Option.None ∧
    (∀ it : Item A, it.next = it.next_back) ∧
    (∀ it : Iter A, it.next = it.next_back) ∧
    (∀ it : IterMut A, it.next = it.next_back) ∧
    (∀ it : IntoIter A, it.next = it.next_back) ∧
    (∀ it : Item A, it.next.2.next.1 = Option.None) :=
  ⟨rfl, rfl, rfl, rfl, rfl, rfl, rfl, rfl, rfl,
   fun _ => rfl, fun _ => rfl, fun _ => rfl, fun _ => rfl, fun _ => rfl⟩

/-- Claim C5: the derived equality, ordering and hashing are
structural: `None` equals only `None` and never a `Some`; `None` orders
strictly before every `Some`; two `Some` compare, order and hash by
their payloads. -/
theorem derived_traits_spec (eqT : T → T → Bool) (cmpT : T → T → Ordering)
    (hT : T → List Nat) (x y : T) :
    Option.eq eqT Option.None (Option.None : Option T) = true ∧
    Option.eq eqT Option.None (Option.Some x) = false ∧
    Option.eq eqT (Option.Some x) Option.None = false ∧
    Option.eq eqT (Option.Some x) (Option.Some y) = eqT x y ∧
    Option.cmp cmpT Option.None (Option.None : Option T) = Ordering.eq ∧
    Option.cmp cmpT Option.None (Option.Some x) = Ordering.lt ∧
    Option.cmp cmpT (Option.Some x) Option.None = Ordering.gt ∧
    Option.cmp cmpT (Option.Some x) (Option.Some y) = cmpT x y ∧
    (Option.hash hT (Option.Some x) = Option.hash hT (Option.Some y)
      ↔ hT x = hT y) := by
  refine ⟨rfl, rfl, rfl, rfl, rfl, rfl, rfl, rfl, ?_⟩
  simp [Option.hash]

/-- Claim C6: the lazy defaults call their supplier only on the empty
path: on `Some x` the result is `x` (resp. `Some x`) with the supplier
state untouched for every supplier; on `None` the result is one
application of the supplier to the current state.  With a counting
supplier the counter stays 0 on the `Some` path and reaches exactly 1
on the `None` path. -/
theorem lazy_default_spec (x y : T) (f : σ → T × σ)
    (g : σ → Option T × σ) (s : σ) :
    Option.unwrap_or_else (Option.Some x) f s = (x, s) ∧
    Option.unwrap_or_else (Option.None : Option T) f s = f s ∧
    Option.or_else (Option.Some x) g s = (Option.Some x, s) ∧
    Option.or_else (Option.None : Option T) g s = g s ∧
    Option.unwrap_or_else (Option.Some x) (fun n : Nat => (y, n + 1)) 0
      = (x, 0) ∧
    Option.unwrap_or_else (Option.None : Option T)
      (fun n : Nat => (y, n + 1)) 0 = (y, 1) ∧
    Option.or_else (Option.Some x)
      (fun n : Nat => (Option.Some y, n + 1)) 0 = (Option.Some x, 0) ∧
    Option.or_else (Option.None : Option T)
      (fun n : Nat => (Option.Some y, n + 1)) 0 = (Option.Some y, 1) :=
  ⟨rfl, rfl, rfl, rfl, rfl, rfl, rfl, rfl⟩

/-- Claim C7: functor composition law, `opt.map(f).map(g)` equals
`opt.map(g ∘ f)` for every option and all functions. -/
theorem map_map_spec (o : Option T) (f : T → U) (g : U → V) :
    (o.map f).map g = o.map (fun x => g (f x)) := by
  cases o <;> rfl

/-- Claim C8: right identity of bind, `opt.and_then(Some)` equals
`opt`; in particular `None` propagates unchanged through `and_then`. -/
theorem and_then_id_spec (o : Option T) :
    o.and_then (fun x => Option.Some x) = o ∧
    (∀ f : T → Option U, (Option.None : Option T).and_then f
      = Option.None) := by
  refine ⟨?_, fun _ => rfl⟩
  cases o <;> rfl

/-- Claim C9: `Some x |>.or y` is `Some x` and `None.or y` is `y`, for
every `x` and `y`. -/
theorem or_spec (x : T) (y : Option T) :
    (Option.Some x).or y = Option.Some x ∧
    (Option.None : Option T).or y = y :=
  ⟨rfl, rfl⟩

/-- Claim C10: every option iterator reports an exact size:
`size_hint` is `(remaining, Some remaining)` where `remaining` is the
exact number of pending elements — `(1, Some(1))` while the single
element is pending, `(0, Some(0))` once exhausted or when built from
`None` — for all three iteration forms. -/
theorem size_hint_spec (x : A) :
    (∀ it : Item A, it.size_hint
      = (it.remaining, Option.Some it.remaining)) ∧
    (∀ it : Item A, it.next.2.size_hint = (0, Option.Some 0)) ∧
    (Option.Some x).iter.size_hint = (1, Option.Some 1) ∧
    (Option.Some x).iter.next.2.size_hint = (0, Option.Some 0) ∧
    (Option.None : Option A).iter.size_hint = (0, Option.Some 0) ∧
    (Option.Some x).iter_mut.size_hint = (1, Option.Some 1) ∧
    (Option.Some x).iter_mut.next.2.size_hint = (0, Option.Some 0) ∧
    (Option.None : Option A).iter_mut.size_hint = (0, Option.Some 0) ∧
    (Option.Some x).into_iter.size_hint = (1, Option.Some 1) ∧
    (Option.Some x).into_iter.next.2.size_hint = (0, Option.Some 0) ∧
    (Option.None : Option A).into_iter.size_hint
      = (0, Option.Some 0) := by
  refine ⟨?_, fun _ => rfl, rfl, rfl, rfl, rfl, rfl, rfl, rfl, rfl, rfl⟩
  intro it
  rcases it with ⟨o⟩
  cases o <;> rfl

end Rust
